import Mathlib

/-!
Shallow embedding of `src/app/node_modules/@sentry/node/esm/integrations/http.js`,
the Sentry `Http` integration: URL extraction, the Sentry-request sentinel,
span/breadcrumb emission in the wrapped `http.get`/`http.request` handlers,
description cleanup, and integration setup.

JavaScript conventions modelled explicitly:
  - optional object properties become `Option` fields (`none` = property absent);
  - JS truthiness on strings (`''` is falsy) is `truthyS` / `orStr`;
  - JS truthiness on numbers (`0` is falsy) is handled at each use site;
  - `String.prototype.replace` with a string pattern replaces only the FIRST
    occurrence, modelled by `replaceFirst`;
  - `String.prototype.indexOf(pat) !== -1` is `strContains`.
-/

/-- JS-style truthiness of an optional string: absent and `''` are falsy. -/
def truthyS : Option String → Bool
  | none => false
  | some s => s != ""

/-- JS `a || b` for an optional string `a` and string default `b`. -/
def orStr (a : Option String) (b : String) : String :=
  match a with
  | none => b
  | some s => if s = "" then b else s

/-- Whether `pat` is a prefix of `s` (character lists). -/
def startsWithList : List Char → List Char → Bool
  | _, [] => true
  | [], _ :: _ => false
  | c :: cs, p :: ps => (c == p) && startsWithList cs ps

/-- JS `s.replace(pat, rep)` with a string pattern: replaces only the first
occurrence of `pat`, returning `s` unchanged when `pat` does not occur. -/
def replaceFirstList : List Char → List Char → List Char → List Char
  | [], pat, rep => if pat == [] then rep else []
  | c :: cs, pat, rep =>
    if startsWithList (c :: cs) pat then rep ++ (c :: cs).drop pat.length
    else c :: replaceFirstList cs pat rep

/-- Number of (possibly overlapping) occurrences of `pat` in `s`. -/
def countOccs : List Char → List Char → Nat
  | [], pat => if pat == [] then 1 else 0
  | c :: cs, pat => (if startsWithList (c :: cs) pat then 1 else 0) + countOccs cs pat

/-- String wrapper for `replaceFirstList`. -/
def replaceFirst (s pat rep : String) : String :=
  String.mk (replaceFirstList s.data pat.data rep.data)

/-- JS `s.indexOf(pat) !== -1`. -/
def strContains (s pat : String) : Bool :=
  countOccs s.data pat.data != 0

/-- The structured form of the argument to `http.get` / `http.request`:
a record with optional `{protocol, hostname, host, port, path, method}`. -/
structure UrlObj where
  protocol : Option String := none
  hostname : Option String := none
  host : Option String := none
  port : Option Nat := none
  path : Option String := none
  method : Option String := none
deriving DecidableEq

/-- The `options` argument of the wrapped handler: a raw URL string or a
structured record. -/
inductive ReqOptions where
  | str (s : String)
  | obj (u : UrlObj)
deriving DecidableEq

/-- Function `extractUrl` from http.js: a string is returned unchanged; otherwise the
URL is assembled from the parts (`url.protocol || ''`,
`url.hostname || url.host || ''`, the port suffix which is dropped for a falsy
port or the standard ports 80/443, `url.path ? url.path : '/'`) and one
occurrence of `'///'` is collapsed via `.replace('///', '/')`. -/
def extractUrl : ReqOptions → String
  | .str s => s
  | .obj url =>
    let protocol := orStr url.protocol ""
    let hostname := orStr url.hostname (orStr url.host "")
    let port :=
      match url.port with
      | none => ""
      | some p => if p == 0 || p == 80 || p == 443 then "" else ":" ++ toString p
    let path := orStr url.path "/"
    replaceFirst (protocol ++ "//" ++ hostname ++ port ++ path) "///" "/"

example : extractUrl (.obj { protocol := some "http:", host := some "a", path := some "/" }) = "http://a/" := by decide
example : extractUrl (.obj { protocol := some "http:", hostname := some "a", port := some 8080, path := some "/x" }) = "http://a:8080/x" := by decide
example : extractUrl (.obj { protocol := some "http:", hostname := some "a", port := some 0, path := some "/" }) = "http://a/" := by decide
example : extractUrl (.str "hello") = "hello" := by decide
example : extractUrl (.obj { path := some "/internal" }) = "/internal" := by decide

/-- A Sentry DSN; only its `host` is consulted by this module. -/
structure Dsn where
  host : String
deriving DecidableEq

/-- The hub's configured client, as seen by `isSentryRequest`:
`getDsn()` may return nothing. -/
structure SentryClient where
  dsn : Option Dsn := none
deriving DecidableEq

/-- The hub's current scope; `getTransaction()` may return nothing. -/
structure Scope where
  hasTransaction : Bool := false
deriving DecidableEq

/-- The ambient `getCurrentHub()` state consulted by the wrapped handler:
`getClient()`, `getScope()`, and whether `getIntegration(Http)` is truthy. -/
structure Hub where
  client : Option SentryClient := none
  scope : Option Scope := none
  hasHttpIntegration : Bool := false
deriving DecidableEq

/-- Predicate `isSentryRequest` from http.js: `false` when the url is falsy or there is
no client; `false` when the client has no DSN; otherwise
`url.indexOf(dsn.host) !== -1`. -/
def isSentryRequest (hub : Hub) (url : String) : Bool :=
  match hub.client with
  | none => false
  | some client =>
    if url = "" then false
    else
      match client.dsn with
      | none => false
      | some dsn => strContains url dsn.host

/-- An agent object (`request.agent`), possibly carrying a `protocol`. -/
structure Agent where
  protocol : Option String := none
deriving DecidableEq

/-- The handle returned by the original `http.get`/`http.request` (a
`ClientRequest`): the wrapped code reads its `method` (for breadcrumbs) and
its `agent` (for description cleanup); `agent := none` models `request.agent`
being absent, so that reading `.protocol` on it would throw. -/
structure Handle where
  method : Option String := none
  agent : Option Agent := none
deriving DecidableEq

/-- The response object delivered by the `response` event. -/
structure HttpResponse where
  statusCode : Nat
deriving DecidableEq

/-- A tracing span as manipulated here: `transaction.startChild` sets
`description` and `op`; `setHttpStatus` sets `httpStatus`; each `finish()`
call increments `finishCount`. -/
structure Span where
  description : String
  op : String
  httpStatus : Option Nat := none
  finishCount : Nat := 0
deriving DecidableEq

/-- Model of `transaction.startChild({description, op})`. -/
def startChild (description op : String) : Span :=
  { description := description, op := op }

/-- The method used in the span description:
`typeof options === 'string' || !options.method ? 'GET' : options.method`. -/
def spanMethod : ReqOptions → String
  | .str _ => "GET"
  | .obj u => orStr u.method "GET"

/-- Function `cleanDescription(requestOptions, response, span)` from http.js, returning
the (possibly mutated) request options and the (possibly overwritten) span
description. It acts only when `requestOptions` is not a string, has no
`protocol` key, and has a truthy `host`; then `response.agent.protocol` is
read inside `try`: when `response.agent` is absent the throw is swallowed and
nothing changes, otherwise `requestOptions.protocol` is backfilled and the
description recomputed as `(requestOptions.method || 'GET') + ' ' +
extractUrl(requestOptions)`. At the call sites `response` is the request
handle (`this`). -/
def cleanDescription (requestOptions : ReqOptions) (response : Handle)
    (spanDescription : String) : ReqOptions × String :=
  match requestOptions with
  | .str _ => (requestOptions, spanDescription)
  | .obj u =>
    match u.protocol with
    | some _ => (requestOptions, spanDescription)
    | none =>
      if truthyS u.host then
        match response.agent with
        | none => (requestOptions, spanDescription)
        | some agent =>
          let u' := { u with protocol := agent.protocol }
          (.obj u', orStr u.method "GET" ++ " " ++ extractUrl (.obj u'))
      else (requestOptions, spanDescription)

/-- A breadcrumb record as built by `addRequestBreadcrumb`, with its `data`
fields inlined and the hint's `event` kept. -/
structure Breadcrumb where
  category : String
  method : Option String
  status_code : Option Nat
  url : String
  type : String
  event : String
deriving DecidableEq

/-- Function `addRequestBreadcrumb(event, url, req, res)` from http.js: nothing is
recorded unless `getCurrentHub().getIntegration(Http)` is truthy; otherwise
one breadcrumb `{category: 'http', data: {method, status_code, url},
type: 'http'}` is added, with `status_code` given by `res && res.statusCode`. -/
def addRequestBreadcrumb (hub : Hub) (event : String) (url : String)
    (req : Handle) (res : Option HttpResponse) : List Breadcrumb :=
  if hub.hasHttpIntegration then
    [{ category := "http", method := req.method,
       status_code := res.map (fun r => r.statusCode), url := url,
       type := "http", event := event }]
  else []

/-- The terminal event delivered to the one-shot listeners: per the module's
event model exactly one of `response`/`error` fires for a call. -/
inductive Outcome where
  | response (res : HttpResponse)
  | error
deriving DecidableEq

/-- Everything observable about one run of the wrapped handler:
the value returned to the caller, the span as created (`spanStarted`) and
after the terminal event (`span`), the breadcrumbs appended, and how many
listener registrations (`once`) the wrapper performed. -/
structure CallTrace where
  returned : Handle
  spanStarted : Option Span
  span : Option Span
  breadcrumbs : List Breadcrumb
  listenersAttached : Nat
deriving DecidableEq

/-- Function `wrappedHandler(options)` from http.js, run to completion on one call:
extract the URL; if it is a Sentry request, call the original handler and
return its handle untouched; otherwise possibly start a child span (tracing
enabled, scope present, transaction present), call the original handler, and
attach the two one-shot listeners, of which exactly the one matching
`outcome` fires: it records a breadcrumb when breadcrumbs are enabled and,
when a span was started, sets the HTTP status (the real one on `response`,
500 on `error`), runs `cleanDescription`, and finishes the span. -/
def wrappedHandler (breadcrumbsEnabled tracingEnabled : Bool) (hub : Hub)
    (originalHandler : ReqOptions → Handle) (options : ReqOptions)
    (outcome : Outcome) : CallTrace :=
  let requestUrl := extractUrl options
  if isSentryRequest hub requestUrl then
    { returned := originalHandler options, spanStarted := none, span := none,
      breadcrumbs := [], listenersAttached := 0 }
  else
    let span0 : Option Span :=
      match hub.scope with
      | none => none
      | some scope =>
        if tracingEnabled then
          if scope.hasTransaction then
            some (startChild (spanMethod options ++ " " ++ requestUrl) "request")
          else none
        else none
    let handle := originalHandler options
    match outcome with
    | .response res =>
      let bcs :=
        if breadcrumbsEnabled then
          addRequestBreadcrumb hub "response" requestUrl handle (some res)
        else []
      let span1 :=
        if tracingEnabled then
          match span0 with
          | none => none
          | some sp =>
            let sp := { sp with httpStatus := some res.statusCode }
            let cleaned := cleanDescription options handle sp.description
            some { sp with description := cleaned.2,
                           finishCount := sp.finishCount + 1 }
        else span0
      { returned := handle, spanStarted := span0, span := span1,
        breadcrumbs := bcs, listenersAttached := 2 }
    | .error =>
      let bcs :=
        if breadcrumbsEnabled then
          addRequestBreadcrumb hub "error" requestUrl handle none
        else []
      let span1 :=
        if tracingEnabled then
          match span0 with
          | none => none
          | some sp =>
            let sp := { sp with httpStatus := some 500 }
            let cleaned := cleanDescription options handle sp.description
            some { sp with description := cleaned.2,
                           finishCount := sp.finishCount + 1 }
        else span0
      { returned := handle, spanStarted := span0, span := span1,
        breadcrumbs := bcs, listenersAttached := 2 }

/-- One of the four patched module entry points: either still the original
function or the wrapped handler produced by `_createWrappedHandlerMaker`. -/
inductive EntryPoint where
  | original
  | wrapped (breadcrumbsEnabled tracingEnabled : Bool)
deriving DecidableEq

/-- The `get`/`request` slots of the `http` and `https` modules. -/
structure ModuleState where
  httpGet : EntryPoint := .original
  httpRequest : EntryPoint := .original
  httpsGet : EntryPoint := .original
  httpsRequest : EntryPoint := .original
deriving DecidableEq

/-- The `Http` integration instance: `name` plus the two flags stored by the
constructor. -/
structure Http where
  name : String
  _breadcrumbs : Bool
  _tracing : Bool
deriving DecidableEq

/-- The constructor's `options` argument: optional `breadcrumbs`/`tracing`. -/
structure HttpOptions where
  breadcrumbs : Option Bool := none
  tracing : Option Bool := none
deriving DecidableEq

/-- The constant `Http.id`. -/
def HttpId : String := "Http"

/-- The `Http(options)` constructor: `options` defaults to `{}`;
`_breadcrumbs` is `true` unless `options.breadcrumbs` is defined;
`_tracing` is `false` unless `options.tracing` is defined. -/
def Http.init (options : Option HttpOptions) : Http :=
  let opts := options.getD {}
  { name := HttpId,
    _breadcrumbs := opts.breadcrumbs.getD true,
    _tracing := opts.tracing.getD false }

/-- Method `Http.prototype.setupOnce`: a no-op when both flags are false; otherwise
`fill`s `http.get`/`http.request`, and also the `https` pair when
`NODE_VERSION.major && NODE_VERSION.major > 8`. -/
def setupOnce (h : Http) (nodeMajor : Option Nat) (m : ModuleState) : ModuleState :=
  if !h._breadcrumbs && !h._tracing then m
  else
    let w := EntryPoint.wrapped h._breadcrumbs h._tracing
    let m1 := { m with httpGet := w, httpRequest := w }
    match nodeMajor with
    | none => m1
    | some v => if v > 8 then { m1 with httpsGet := w, httpsRequest := w } else m1

/-- Calling one of the module's entry points: the original function just
returns its handle (no listeners, no telemetry); a wrapped one runs
`wrappedHandler`. -/
def callEntry (e : EntryPoint) (hub : Hub) (originalHandler : ReqOptions → Handle)
    (options : ReqOptions) (outcome : Outcome) : CallTrace :=
  match e with
  | .original =>
    { returned := originalHandler options, spanStarted := none, span := none,
      breadcrumbs := [], listenersAttached := 0 }
  | .wrapped bc tr => wrappedHandler bc tr hub originalHandler options outcome

/-- The port suffix exactly as the spec's reference definition words it:
empty when the port is absent or equals 80/443, else `':' + port`. -/
def portSuffixSpec : Option Nat → String
  | none => ""
  | some p => if p == 80 || p == 443 then "" else ":" ++ toString p

/-- The spec's reference definition of URL normalization, followed word for
word: a string input is returned unchanged; a structured input is assembled
as `protocol + '//' + (hostname or host or '') + port_suffix + path_or_slash`
with the path defaulting to `'/'` when absent, and one occurrence of `'///'`
in the assembled result is collapsed to a single `'/'`. -/
def normalizeSpec : ReqOptions → String
  | .str s => s
  | .obj u =>
    replaceFirst
      (orStr u.protocol "" ++ "//" ++ orStr u.hostname (orStr u.host "")
        ++ portSuffixSpec u.port ++ orStr u.path "/") "///" "/"

/-- Definition `portSuffixSpec` amended for JS number truthiness: a port of `0` is falsy
in `!url.port`, so it too yields an empty suffix. -/
def portSuffixSpecAmended : Option Nat → String
  | none => ""
  | some p => if p == 0 || p == 80 || p == 443 then "" else ":" ++ toString p

/-- Definition `normalizeSpec` with the amended port suffix; otherwise identical. -/
def normalizeSpecAmended : ReqOptions → String
  | .str s => s
  | .obj u =>
    replaceFirst
      (orStr u.protocol "" ++ "//" ++ orStr u.hostname (orStr u.host "")
        ++ portSuffixSpecAmended u.port ++ orStr u.path "/") "///" "/"

/-- Claim C6: for every input, the wrapped handler returns exactly the handle
produced by the original handler on the unmodified arguments; the one-shot
listener registrations return the handle itself. -/
theorem wrappedHandler_returns_original_handle (bc tr : Bool) (hub : Hub)
    (f : ReqOptions → Handle) (options : ReqOptions) (outcome : Outcome) :
    (wrappedHandler bc tr hub f options outcome).returned = f options := by
  simp only [wrappedHandler]
  by_cases h : isSentryRequest hub (extractUrl options) = true
  · rw [if_pos h]
  · rw [if_neg h]
    cases outcome <;> rfl

/-- Claim C7: constructed with both breadcrumbs and tracing disabled, the
integration's installation is a no-op (every entry point of both protocol
families is left unchanged, whatever the module state and Node version), and
calling an unwrapped entry point returns the original handle with no
interceptor-added listeners, no span and no breadcrumb. -/
theorem setupOnce_disabled_noop (nodeMajor : Option Nat) (m : ModuleState)
    (hub : Hub) (f : ReqOptions → Handle) (options : ReqOptions) (outcome : Outcome) :
    setupOnce (Http.init (some { breadcrumbs := some false, tracing := some false }))
        nodeMajor m = m
    ∧ callEntry EntryPoint.original hub f options outcome =
        { returned := f options, spanStarted := none, span := none,
          breadcrumbs := [], listenersAttached := 0 } :=
  ⟨rfl, rfl⟩

/-- Claim C10: the constructor defaults `_breadcrumbs` to `true` and
`_tracing` to `false` when the options record omits the flag or is absent
altogether, and explicitly supplied booleans override the defaults. -/
theorem Http_init_defaults :
    ((Http.init none)._breadcrumbs = true ∧ (Http.init none)._tracing = false)
    ∧ ((Http.init (some {}))._breadcrumbs = true
        ∧ (Http.init (some {}))._tracing = false)
    ∧ (∀ b t : Bool,
        (Http.init (some { breadcrumbs := some b, tracing := some t }))._breadcrumbs = b
        ∧ (Http.init (some { breadcrumbs := some b, tracing := some t }))._tracing = t)
    ∧ (∀ b : Bool, (Http.init (some { breadcrumbs := some b }))._tracing = false)
    ∧ (∀ t : Bool, (Http.init (some { tracing := some t }))._breadcrumbs = true) :=
  ⟨⟨rfl, rfl⟩, ⟨rfl, rfl⟩, fun _ _ => ⟨rfl, rfl⟩, fun _ => rfl, fun _ => rfl⟩

/-- Claim C4 counterexample: the spec's reference normalization and the code's
`extractUrl` disagree on a structured input with port `0` — JS treats `0` as
falsy in `!url.port`, so the code drops the suffix while the reference
definition (port neither absent nor 80/443) keeps `':0'`. -/
theorem extractUrl_ne_normalizeSpec_cex :
    extractUrl (.obj { protocol := some "http:", hostname := some "a", port := some 0 })
      = "http://a/"
    ∧ normalizeSpec (.obj { protocol := some "http:", hostname := some "a", port := some 0 })
      = "http://a:0/"
    ∧ extractUrl (.obj { protocol := some "http:", hostname := some "a", port := some 0 })
      ≠ normalizeSpec (.obj { protocol := some "http:", hostname := some "a", port := some 0 }) := by
  decide

/-- Claim C4 (amended): `extractUrl` equals the spec's reference definition
once the port suffix is also dropped for a port of `0` (JS falsiness);
everything else — strings unchanged, assembly order, path default, single
`'///'` collapse — is as the spec states. -/
theorem extractUrl_eq_normalizeSpecAmended (o : ReqOptions) :
    extractUrl o = normalizeSpecAmended o := by
  cases o with
  | str s => rfl
  | obj u =>
    rcases u with ⟨pr, hn, ho, po, pa, me⟩
    cases po <;> rfl

/-- Claim C5 counterexample: a structured input with the numeric port `0`
(neither absent nor 80 nor 443) yields a normalized URL in which the suffix
`':0'` occurs zero times, not exactly once. -/
theorem extractUrl_port_zero_cex :
    extractUrl (.obj { protocol := some "http:", hostname := some "b", port := some 0, path := some "/y" }) = "http://b/y"
    ∧ countOccs
        (String.data (extractUrl (.obj { protocol := some "http:", hostname := some "b", port := some 0, path := some "/y" })))
        (String.data ":0") = 0 := by
  decide

/-- Claim C5 (amended): when the port is absent, `0`, `80` or `443` the URL is
assembled with an empty port suffix, and for any other numeric port the
suffix `':' + port` is inserted exactly once, between the host part and the
path, before the single `'///'` collapse. -/
theorem extractUrl_port_cases (u : UrlObj) :
    ((u.port = none ∨ u.port = some 0 ∨ u.port = some 80 ∨ u.port = some 443) →
      extractUrl (.obj u) =
        replaceFirst (orStr u.protocol "" ++ "//" ++ orStr u.hostname (orStr u.host "")
          ++ orStr u.path "/") "///" "/")
    ∧ (∀ p : Nat, u.port = some p → p ≠ 0 → p ≠ 80 → p ≠ 443 →
      extractUrl (.obj u) =
        replaceFirst (orStr u.protocol "" ++ "//" ++ orStr u.hostname (orStr u.host "")
          ++ (":" ++ toString p) ++ orStr u.path "/") "///" "/") := by
  constructor
  · intro h
    rcases h with h | h | h | h <;> simp [extractUrl, h]
  · intro p hp h0 h80 h443
    simp [extractUrl, hp, h0, h80, h443]

/-- Claim C5 witness: the non-standard port 8080 produces the `':8080'`
suffix in its place in the assembly. -/
theorem extractUrl_port_cases_witness :
    extractUrl (.obj { protocol := some "http:", hostname := some "a", port := some 8080, path := some "/x" }) =
      replaceFirst (orStr (some "http:") "" ++ "//" ++ orStr (some "a") (orStr none "")
        ++ (":" ++ toString 8080) ++ orStr (some "/x") "/") "///" "/" :=
  (extractUrl_port_cases _).2 8080 rfl (by decide) (by decide) (by decide)

/-- Claim C1: with tracing enabled, a scope present and an active transaction
on it, and the call not aimed at Sentry itself, the wrapped handler creates
exactly one child span — operation `'request'`, description
`'<METHOD> <normalized url>'` with the method defaulting to `'GET'` for a
string argument or a missing method — and that span is finished exactly once,
in whichever one-shot terminal callback (`response` or `error`) fires. -/
theorem wrappedHandler_span_lifecycle (bc : Bool) (hub : Hub) (sc : Scope)
    (f : ReqOptions → Handle) (options : ReqOptions) (outcome : Outcome)
    (hscope : hub.scope = some sc) (htx : sc.hasTransaction = true)
    (hns : isSentryRequest hub (extractUrl options) = false) :
    (wrappedHandler bc true hub f options outcome).spanStarted =
      some { description := spanMethod options ++ " " ++ extractUrl options,
             op := "request", httpStatus := none, finishCount := 0 }
    ∧ ∃ s : Span, (wrappedHandler bc true hub f options outcome).span = some s
        ∧ s.op = "request" ∧ s.finishCount = 1 := by
  cases outcome with
  | response res =>
    refine ⟨?_, ?_⟩ <;>
      simp [wrappedHandler, hscope, htx, hns, startChild]
  | error =>
    refine ⟨?_, ?_⟩ <;>
      simp [wrappedHandler, hscope, htx, hns, startChild]

/-- Claim C1 witness: a concrete traced call (string target, response
outcome) creates the span `'GET http://x/'` and finishes it once. -/
theorem wrappedHandler_span_lifecycle_witness :
    (wrappedHandler true true
        { client := none, scope := some { hasTransaction := true }, hasHttpIntegration := false }
        (fun _ => {}) (ReqOptions.str "http://x/") (.response { statusCode := 200 })).spanStarted =
      some { description := spanMethod (ReqOptions.str "http://x/") ++ " " ++ extractUrl (ReqOptions.str "http://x/"),
             op := "request", httpStatus := none, finishCount := 0 }
    ∧ ∃ s : Span,
        (wrappedHandler true true
            { client := none, scope := some { hasTransaction := true }, hasHttpIntegration := false }
            (fun _ => {}) (ReqOptions.str "http://x/") (.response { statusCode := 200 })).span = some s
        ∧ s.op = "request" ∧ s.finishCount = 1 :=
  wrappedHandler_span_lifecycle true _ _ (fun _ => {}) _ _ rfl rfl rfl

/-- Claim C2 counterexample: with breadcrumbs enabled and a non-Sentry URL,
but no `Http` integration registered on the current hub, the wrapped handler
appends no breadcrumb at all, not exactly one. -/
theorem wrappedHandler_breadcrumb_cex :
    isSentryRequest { client := none, scope := none, hasHttpIntegration := false }
      (extractUrl (.str "http://u/")) = false
    ∧ (wrappedHandler true false { client := none, scope := none, hasHttpIntegration := false }
        (fun _ => {}) (.str "http://u/") (.response { statusCode := 200 })).breadcrumbs = []
    ∧ (wrappedHandler true false { client := none, scope := none, hasHttpIntegration := false }
        (fun _ => {}) (.str "http://u/") (.response { statusCode := 200 })).breadcrumbs.length ≠ 1 := by
  refine ⟨rfl, rfl, ?_⟩
  decide

/-- Claim C2 (amended): with breadcrumbs enabled, the `Http` integration
registered on the current hub, and a non-Sentry URL, exactly one breadcrumb
of category `'http'` is appended per call: built from the response's
`statusCode` on the `response` event, and with `status_code` absent on the
`error` event. -/
theorem wrappedHandler_breadcrumb_once (tr : Bool) (hub : Hub)
    (f : ReqOptions → Handle) (options : ReqOptions) (outcome : Outcome)
    (hint : hub.hasHttpIntegration = true)
    (hns : isSentryRequest hub (extractUrl options) = false) :
    (∀ res : HttpResponse, outcome = .response res →
      (wrappedHandler true tr hub f options outcome).breadcrumbs =
        [{ category := "http", method := (f options).method,
           status_code := some res.statusCode, url := extractUrl options,
           type := "http", event := "response" }])
    ∧ (outcome = .error →
      (wrappedHandler true tr hub f options outcome).breadcrumbs =
        [{ category := "http", method := (f options).method, status_code := none,
           url := extractUrl options, type := "http", event := "error" }]) := by
  constructor
  · rintro res rfl
    simp [wrappedHandler, addRequestBreadcrumb, hint, hns]
  · rintro rfl
    simp [wrappedHandler, addRequestBreadcrumb, hint, hns]

/-- Claim C2 witness: a concrete call with the integration registered records
exactly the one `'http'` breadcrumb carrying status 201. -/
theorem wrappedHandler_breadcrumb_once_witness :
    (wrappedHandler true false
        { client := none, scope := none, hasHttpIntegration := true }
        (fun _ => {}) (ReqOptions.str "http://u/") (.response { statusCode := 201 })).breadcrumbs =
      [{ category := "http",
         method := ((fun _ => ({} : Handle)) (ReqOptions.str "http://u/")).method,
         status_code := some ({ statusCode := 201 } : HttpResponse).statusCode,
         url := extractUrl (ReqOptions.str "http://u/"), type := "http", event := "response" }] :=
  (wrappedHandler_breadcrumb_once false
    { client := none, scope := none, hasHttpIntegration := true } (fun _ => {})
    (ReqOptions.str "http://u/") (.response { statusCode := 201 }) rfl rfl).1
    { statusCode := 201 } rfl

/-- Claim C3 counterexample: with an empty configured ingestion host and an
empty request URL, the host IS a substring of the normalized URL, yet the
code does not bypass instrumentation (the `!url` guard in `isSentryRequest`
fails first): listeners are attached and a breadcrumb is recorded. -/
theorem wrappedHandler_bypass_cex :
    strContains (extractUrl (.str "")) "" = true
    ∧ (wrappedHandler true false
        { client := some { dsn := some { host := "" } }, scope := none, hasHttpIntegration := true }
        (fun _ => {}) (.str "") (.response { statusCode := 200 })).listenersAttached = 2
    ∧ (wrappedHandler true false
        { client := some { dsn := some { host := "" } }, scope := none, hasHttpIntegration := true }
        (fun _ => {}) (.str "") (.response { statusCode := 200 })).breadcrumbs ≠ [] := by
  refine ⟨rfl, rfl, ?_⟩
  decide

/-- Claim C3 (amended): when a client with a DSN is configured, the DSN host
is a substring of the normalized URL, and the normalized URL is non-empty,
the wrapped handler bypasses all instrumentation: no span, no breadcrumb, no
listeners, and the original handler's result is returned unmodified. -/
theorem wrappedHandler_sentry_bypass (bc tr : Bool) (hub : Hub)
    (c : SentryClient) (d : Dsn) (f : ReqOptions → Handle) (options : ReqOptions)
    (outcome : Outcome) (hc : hub.client = some c) (hd : c.dsn = some d)
    (hsub : strContains (extractUrl options) d.host = true)
    (hne : extractUrl options ≠ "") :
    wrappedHandler bc tr hub f options outcome =
      { returned := f options, spanStarted := none, span := none,
        breadcrumbs := [], listenersAttached := 0 } := by
  have hs : isSentryRequest hub (extractUrl options) = true := by
    simp [isSentryRequest, hc, hd, hne, hsub]
  simp [wrappedHandler, hs]

/-- Claim C3 witness: a concrete request to the configured Sentry host is
returned untouched with no telemetry. -/
theorem wrappedHandler_sentry_bypass_witness :
    wrappedHandler true true
        { client := some { dsn := some { host := "sentry.io" } }, scope := some { hasTransaction := true },
          hasHttpIntegration := true }
        (fun _ => {}) (ReqOptions.str "https://sentry.io/api/1") (.response { statusCode := 200 }) =
      { returned := (fun _ => ({} : Handle)) (ReqOptions.str "https://sentry.io/api/1"),
        spanStarted := none, span := none, breadcrumbs := [], listenersAttached := 0 } :=
  wrappedHandler_sentry_bypass true true _ _ _ (fun _ => {}) _ _ rfl rfl (by decide) (by decide)

/-- Claim C8 counterexample: with a client whose DSN host is the empty string
and the empty URL, the host is a substring of the URL, yet `isSentryRequest`
returns `false` because of its `!url` guard. -/
theorem isSentryRequest_empty_url_cex :
    isSentryRequest
      { client := some { dsn := some { host := "" } }, scope := none, hasHttpIntegration := false }
      "" = false
    ∧ strContains "" "" = true := by
  decide

/-- Claim C8 (amended): `isSentryRequest` returns `false` when no client or
no DSN is configured, `false` for the empty (falsy) URL, and otherwise
returns exactly whether the configured DSN host is a substring of the URL. -/
theorem isSentryRequest_characterization (hub : Hub) (url : String) :
    (hub.client = none → isSentryRequest hub url = false)
    ∧ (∀ c : SentryClient, hub.client = some c → c.dsn = none →
        isSentryRequest hub url = false)
    ∧ (url = "" → isSentryRequest hub url = false)
    ∧ (∀ c : SentryClient, ∀ d : Dsn, hub.client = some c → c.dsn = some d →
        url ≠ "" → isSentryRequest hub url = strContains url d.host) := by
  refine ⟨?_, ?_, ?_, ?_⟩
  · intro h
    simp [isSentryRequest, h]
  · intro c hc hd
    simp [isSentryRequest, hc, hd]
  · intro h
    subst h
    unfold isSentryRequest
    cases hub.client <;> simp
  · intro c d hc hd hne
    simp [isSentryRequest, hc, hd, hne]

/-- Claim C8 witness: a concrete configured host that occurs in the URL makes
the predicate agree with the substring test. -/
theorem isSentryRequest_characterization_witness :
    isSentryRequest
      { client := some { dsn := some { host := "sentry.io" } }, scope := none, hasHttpIntegration := false }
      "https://sentry.io/api/1" =
      strContains "https://sentry.io/api/1" "sentry.io" :=
  (isSentryRequest_characterization
      { client := some { dsn := some { host := "sentry.io" } }, scope := none, hasHttpIntegration := false }
      "https://sentry.io/api/1").2.2.2
    { dsn := some { host := "sentry.io" } } { host := "sentry.io" } rfl rfl (by decide)

/-- Claim C9: `cleanDescription` acts only on a structured argument with no
`protocol` key and a truthy `host`; in every other case the options and the
span description are returned untouched. When it acts, a missing agent on the
request handle (whose `.protocol` read would throw) is swallowed and changes
nothing, while a present agent backfills `requestOptions.protocol` and
overwrites the description with the recomputed URL; no error ever escapes
(the function is total). -/
theorem cleanDescription_behaviour (options : ReqOptions) (response : Handle)
    (desc : String) :
    (∀ s : String, options = .str s →
      cleanDescription options response desc = (options, desc))
    ∧ (∀ u : UrlObj, options = .obj u → u.protocol ≠ none →
      cleanDescription options response desc = (options, desc))
    ∧ (∀ u : UrlObj, options = .obj u → truthyS u.host = false →
      cleanDescription options response desc = (options, desc))
    ∧ (∀ u : UrlObj, options = .obj u → u.protocol = none → truthyS u.host = true →
      response.agent = none →
      cleanDescription options response desc = (options, desc))
    ∧ (∀ u : UrlObj, options = .obj u → u.protocol = none → truthyS u.host = true →
      ∀ a : Agent, response.agent = some a →
      cleanDescription options response desc =
        (.obj { u with protocol := a.protocol },
         orStr u.method "GET" ++ " " ++ extractUrl (.obj { u with protocol := a.protocol }))) := by
  refine ⟨?_, ?_, ?_, ?_, ?_⟩
  · rintro s rfl
    rfl
  · rintro u rfl hp
    cases hpr : u.protocol with
    | none => exact absurd hpr hp
    | some v => simp [cleanDescription, hpr]
  · rintro u rfl hh
    cases hpr : u.protocol with
    | none => simp [cleanDescription, hpr, hh]
    | some v => simp [cleanDescription, hpr]
  · rintro u rfl hp hh ha
    simp [cleanDescription, hp, hh, ha]
  · rintro u rfl hp hh a ha
    simp [cleanDescription, hp, hh, ha]

/-- Claim C9 witness: a structured call lacking a protocol but carrying a
host, whose request handle exposes an agent with `'http:'`, gets its options
backfilled and its description recomputed. -/
theorem cleanDescription_behaviour_witness :
    cleanDescription (.obj { host := some "h" })
        { method := none, agent := some { protocol := some "http:" } } "d" =
      (.obj { ({ host := some "h" } : UrlObj) with protocol := some "http:" },
       orStr ({ host := some "h" } : UrlObj).method "GET" ++ " "
         ++ extractUrl (.obj { ({ host := some "h" } : UrlObj) with protocol := some "http:" })) :=
  (cleanDescription_behaviour (.obj { host := some "h" })
      { method := none, agent := some { protocol := some "http:" } } "d").2.2.2.2
    { host := some "h" } rfl rfl rfl { protocol := some "http:" } rfl
